import Mathlib

/-
Shallow embedding of the authentication subsystem of `my_rust_framework`:

  * src/framework/src/structs.rs  — `UserRole`, `User`
  * src/framework/src/auth.rs     — `hash_password`, `verify_password`,
                                    `create_jwt`, `read_jwt`, `AuthUser::from_request`,
                                    `JwtError`, `AuthError`
  * src/starter/src/services/login.rs    — `post` (LoginFlow) with the
                                           `DUMMY_HASH : OnceLock<String>` cell
  * src/starter/src/services/register.rs — `post` (registration)

External libraries (argon2, jsonwebtoken, std::sync::OnceLock, sqlx) are
modelled at their interfaces: argon2 as an abstract pair of functions that may
fail, the JWT wire format as claims plus a deterministic keyed signature,
`OnceLock::get_or_init` as an explicit state transition, and the database as a
lookup function from the queried email to its outcome.
-/

/-- `UserRole` from src/framework/src/structs.rs. -/
inductive UserRole
  | Admin
  | User
  | None
deriving DecidableEq, Repr, BEq

/-- Rust `String::to_lowercase`, modelled characterwise. -/
def toLowercase (s : String) : String :=
  ⟨s.data.map Char.toLower⟩

/-- Rust `str::trim`: strip whitespace from both ends, modelled on the
character list. -/
def trimStr (s : String) : String :=
  ⟨(((s.data.dropWhile Char.isWhitespace).reverse).dropWhile Char.isWhitespace).reverse⟩

/-- Rust `str::contains(char)`. -/
def containsChar (s : String) (c : Char) : Bool :=
  s.data.any (fun a => a == c)

/-- Rust `str::is_empty`. -/
def strIsEmpty (s : String) : Bool :=
  s.data.isEmpty

/-- Rust `str::len`: the UTF-8 byte length. -/
def strLen (s : String) : Nat :=
  (s.data.map Char.utf8Size).sum

/-- `impl FromStr for UserRole` (structs.rs): match on the lowercased input,
unknown values are `Err("Unknown role: ...")`. -/
def UserRole.from_str (s : String) : Except String UserRole :=
  if toLowercase s = "admin" then .ok .Admin
  else if toLowercase s = "user" then .ok .User
  else if toLowercase s = "none" then .ok .None
  else .error ("Unknown role: " ++ s)

/-- `impl From<String> for UserRole` (structs.rs): `s.parse().unwrap_or(UserRole::None)`. -/
def UserRole.fromString (s : String) : UserRole :=
  match UserRole.from_str s with
  | .ok r => r
  | .error _ => .None

/-- `User` from src/framework/src/structs.rs (`created_at: NaiveDateTime`
modelled as an integer timestamp; it is never consulted by the auth code). -/
structure User where
  id : Int
  email : String
  password : String
  role : UserRole
  created_at : Int
deriving DecidableEq, Repr

/-- `Claims` from src/framework/src/auth.rs. -/
structure Claims where
  sub : Int
  role : UserRole
  exp : Nat
deriving DecidableEq, Repr

/-- Numeric code of a role, used only to feed `signToken`. -/
def roleCode : UserRole → Nat
  | .Admin => 0
  | .User => 1
  | .None => 2

/-- Model of the keyed MAC that `jsonwebtoken::encode` computes over the
serialized claims with the secret.  The theorems below only use that it is a
deterministic function of the secret and the payload, matching the
recompute-and-compare discipline of `jsonwebtoken::decode`. -/
def signToken (secret : String) (c : Claims) : Nat :=
  secret.length * 7 + c.sub.natAbs * 11 + c.exp * 13 + roleCode c.role

/-- A structurally well-formed token on the wire: serialized claims plus the
attached signature value. -/
structure Token where
  claims : Claims
  sig : Nat
deriving DecidableEq, Repr

/-- The cookie value as received: either a parseable token or unparseable text. -/
inductive Wire
  | tok (t : Token)
  | malformed (s : String)
deriving DecidableEq, Repr

/-- Failure of `jsonwebtoken::decode`: the payload did not parse, the
recomputed signature did not match the attached one, or the claims validation
rejected an `exp` already expired beyond the leeway (`ErrorKind::ExpiredSignature`). -/
inductive DecodeErr
  | parseFailed
  | badSignature
  | expired
deriving DecidableEq, Repr

/-- The default `leeway` of `jsonwebtoken::Validation::default()`, in seconds. -/
def jwtLeeway : Nat := 60

/-- `jsonwebtoken::decode::<Claims>` modelled at its interface: parse the wire
form, recompute and compare the signature with the secret, and then run the
claims validation of `Validation::default()`, which has `validate_exp = true`:
a token whose `exp` is more than the default leeway before the current time
fails inside `decode` itself.  The signature check precedes the claims
validation, as in the library. -/
def decodeJwt (secret : String) (now : Nat) (w : Wire) : Except DecodeErr Claims :=
  match w with
  | .malformed _ => .error .parseFailed
  | .tok t =>
      if t.sig = signToken secret t.claims then
        if t.claims.exp < now - jwtLeeway then .error .expired
        else .ok t.claims
      else .error .badSignature

/-- `JwtError` from src/framework/src/auth.rs. -/
inductive JwtError
  | SecretNotSet
  | ExpirationError
  | JwtEncodingError
  | JwtDecodingError
  | JwtExpired
  | TokenNotFound
  | Unauthorized
deriving DecidableEq, Repr

/-- The `#[error(...)]` display strings of `JwtError` (thiserror). -/
def jwtErrMsg : JwtError → String
  | .SecretNotSet => "JWT_SECRET not set"
  | .ExpirationError => "Error calculating expiration time"
  | .JwtEncodingError => "Error encoding the JWT"
  | .JwtDecodingError => "Error decoding the JWT"
  | .JwtExpired => "JWT has expired"
  | .TokenNotFound => "Token not found in request"
  | .Unauthorized => "Unauthorized access"

/-- The parts of the actix `HttpRequest` that `read_jwt` consults: the value of
the cookie named `token`, when present. -/
structure Request where
  tokenCookie : Option Wire
deriving DecidableEq

/-- Ambient process state read by auth.rs: the `JWT_SECRET` environment
variable and the wall clock in seconds since `UNIX_EPOCH`. -/
structure SysEnv where
  jwtSecret : Option String
  now : Nat
deriving DecidableEq

/-- `create_jwt` (auth.rs): requires the secret, sets
`exp = now + 3600 * 12`, serializes and signs the claims. -/
def create_jwt (env : SysEnv) (user : User) : Except JwtError Wire :=
  match env.jwtSecret with
  | none => .error .SecretNotSet
  | some secret =>
      let expiration := env.now + 3600 * 12
      let claims : Claims := ⟨user.id, user.role, expiration⟩
      .ok (.tok ⟨claims, signToken secret claims⟩)

/-- `read_jwt` (auth.rs): cookie lookup (`TokenNotFound` when absent), secret
lookup (`SecretNotSet` when unset), decode with any decode failure collapsed to
`JwtDecodingError` by `map_err`, then the explicit expiry check
`if token_data.claims.exp < now { return Err(JwtExpired) }`. -/
def read_jwt (env : SysEnv) (req : Request) : Except JwtError Claims :=
  match req.tokenCookie with
  | none => .error .TokenNotFound
  | some w =>
      match env.jwtSecret with
      | none => .error .SecretNotSet
      | some secret =>
          match decodeJwt secret env.now w with
          | .error _ => .error .JwtDecodingError
          | .ok claims =>
              if claims.exp < env.now then .error .JwtExpired
              else .ok claims

/-- `AuthError` (auth.rs), with the redirect response abstracted to its
`Location` target. -/
inductive AuthError
  | Redirect (location : String)
  | Other (msg : String)
deriving DecidableEq

/-- `impl From<JwtError> for AuthError` (auth.rs): the four expected per-request
failures become a redirect to `/login`; the rest become an internal error
carrying the display string. -/
def AuthError.fromJwt : JwtError → AuthError
  | .TokenNotFound => .Redirect "/login"
  | .JwtExpired => .Redirect "/login"
  | .JwtDecodingError => .Redirect "/login"
  | .Unauthorized => .Redirect "/login"
  | e => .Other (jwtErrMsg e)

/-- `AuthUser` (auth.rs). -/
structure AuthUser where
  claims : Claims
deriving DecidableEq

/-- `AuthUser::from_request` (auth.rs): `read_jwt`, then require
`claims.role == UserRole::Admin`, mapping any failure through
`AuthError::from`. -/
def AuthUser.from_request (env : SysEnv) (req : Request) : Except AuthError AuthUser :=
  match read_jwt env req with
  | .ok claims =>
      if claims.role = UserRole.Admin then .ok ⟨claims⟩
      else .error (AuthError.fromJwt .Unauthorized)
  | .error e => .error (AuthError.fromJwt e)

/-- Abstract behaviour of the argon2 library as auth.rs calls it:
`verifyEncoded hash password` models `argon2::verify_encoded(hash, password)`,
`hashEncoded password` models `argon2::hash_encoded(password, salt, config)`
with the random salt abstracted away.  A value of this type fixes one possible
behaviour of the library, so theorems quantifying over it hold for every
behaviour, including every internal error. -/
structure Argon2 where
  verifyEncoded : String → String → Except Unit Bool
  hashEncoded : String → Except Unit String

/-- `verify_password` (auth.rs): `Ok(matches) => matches, Err(_) => false`. -/
def verify_password (lib : Argon2) (password hash : String) : Bool :=
  match lib.verifyEncoded hash password with
  | .ok m => m
  | .error _ => false

/-- `hash_password` (auth.rs): random salt plus `argon2::hash_encoded`. -/
def hash_password (lib : Argon2) (password : String) : Except Unit String :=
  lib.hashEncoded password

/-- `std::sync::OnceLock`, by its cell contents.  The library guarantees the
initializer runs at most once even under concurrent first access; an execution
is modelled as the sequence of `get_or_init` calls in the order the cell
serializes them. -/
structure OnceLock (α : Type) where
  cell : Option α
deriving DecidableEq

/-- `OnceLock::get_or_init`: returns the observed value, the new cell state,
and whether this call ran the initializer. -/
def OnceLock.get_or_init {α : Type} (l : OnceLock α) (f : Unit → α) :
    α × OnceLock α × Bool :=
  match l.cell with
  | some v => (v, l, false)
  | none =>
      let v := f ()
      (v, ⟨some v⟩, true)

/-- The `DUMMY_HASH` initializer closure in login.rs, including its hard-coded
failsafe value for the case that hashing fails. -/
def dummyInit (lib : Argon2) : Unit → String := fun _ =>
  match hash_password lib "dummy_password_for_timing_safety" with
  | .ok h => h
  | .error _ => "$argon2id$v=19$m=4096,t=3,p=1$c29tZXNhbHQ$i6PrS9n+AdfNf/U7/lH1XQ"

/-- `Env` from src/framework/src/lib.rs. -/
inductive EnvMode
  | Dev
  | Prod
deriving DecidableEq, Repr

/-- The fields of `AppData` that login.rs reads, plus the wall clock observed
while handling the attempt. -/
structure AppData where
  env : EnvMode
  domain : String
  jwtSecret : String
  now : Nat
deriving DecidableEq

/-- A cookie as built by `Cookie::build` in login.rs. -/
structure Cookie where
  name : String
  value : Wire
  domain : String
  path : String
  sameSiteStrict : Bool
  secure : Bool
  maxAgeSecs : Nat
  httpOnly : Bool
deriving DecidableEq

/-- The HTTP outcomes the login/register handlers produce: a rendered template
with its context, or a `303 See Other` redirect carrying cookies. -/
inductive Response
  | render (template : String) (ctx : List (String × String))
  | seeOther (location : String) (cookies : List Cookie)
deriving DecidableEq

/-- The `Set-Cookie` headers of a response. -/
def Response.setCookies : Response → List Cookie
  | .render _ _ => []
  | .seeOther _ cs => cs

/-- `AppError` as the handlers use it: an internal error with a message, or a
propagated database error (`Err(e.into())` in login.rs). -/
inductive AppError
  | Internal (msg : String)
  | Db
deriving DecidableEq

/-- Outcome of `SELECT * FROM users WHERE email = $1 ... fetch_one`:
a row, `RowNotFound`, or any other database error. -/
inductive LookupResult
  | found (u : User)
  | notFound
  | dbError
deriving DecidableEq

/-- The login form (login.rs `FormData`). -/
structure LoginForm where
  email : String
  password : String
deriving DecidableEq

/-- Observable events of one `post` call in login.rs: how many times
`verify_password` ran and against which hashes, how many JWTs were requested
from `create_jwt`, which dummy value the `DUMMY_HASH` cell yielded, and whether
this call ran the cell's initializer. -/
structure LoginTrace where
  verifyCalls : Nat
  jwtsIssued : Nat
  verifiedAgainst : List String
  observedDummy : Option String
  dummyComputed : Bool
deriving DecidableEq

/-- The cookie attached on successful login (login.rs): name `token`, the JWT
as value, the configured domain, path `/`, `SameSite=Strict`,
`Secure` iff the environment is not `Dev`, max age one hour, `HttpOnly`. -/
def loginCookie (data : AppData) (w : Wire) : Cookie :=
  ⟨"token", w, data.domain, "/", true, data.env != EnvMode.Dev, 3600, true⟩

/-- `post` (login.rs) as a function of the database outcome for the submitted
email, the argon2 behaviour, and the `DUMMY_HASH` cell.  A non-`RowNotFound`
database error propagates immediately (`Err(e.into())`).  Otherwise the cell is
read via `get_or_init`, the comparison hash is the account's stored hash when
the row exists and the dummy hash when it does not, `verify_password` runs
exactly once, and `!user_exists || !password_ok || user.map_or(true, role !=
Admin)` selects between the generic re-rendered login view and JWT issuance
plus the cookie redirect.  The common state effects (new cell state, the single
verify call, the observed dummy) are identical on every branch after the
database match, so they are factored out of the branch on the guard. -/
def loginPost (data : AppData) (lib : Argon2) (db : String → LookupResult)
    (cell : OnceLock String) (form : LoginForm) :
    Except AppError Response × OnceLock String × LoginTrace :=
  match db form.email with
  | .dbError => (.error AppError.Db, cell, ⟨0, 0, [], none, false⟩)
  | lookup =>
      let user : Option User := match lookup with | .found u => some u | _ => none
      let r := cell.get_or_init (dummyInit lib)
      let dummy_hash := r.1
      let hash : String := match user with | some u => u.password | none => dummy_hash
      let password_ok := verify_password lib form.password hash
      let rejected : Bool :=
        (!user.isSome) || ((!password_ok) ||
          (match user with | some u => u.role != UserRole.Admin | none => true))
      let outcome : Except AppError Response × Nat :=
        if rejected then
          (.ok (.render "login" [("error", "Falsche Daten")]), 0)
        else
          match user with
          | none => (.ok (.render "login" [("error", "Falsche Daten")]), 0)
          | some u =>
              match create_jwt ⟨some data.jwtSecret, data.now⟩ u with
              | .error e =>
                  (.error (.Internal ("JWT creation error: " ++ jwtErrMsg e)), 1)
              | .ok w => (.ok (.seeOther "/" [loginCookie data w]), 1)
      (outcome.1, r.2.1, ⟨1, outcome.2, [hash], some dummy_hash, r.2.2⟩)

/-- The guard of login.rs's rejection branch, as the code computes it:
`false` when the lookup itself errored (that path returns 500 before the
guard), `true` when the email is unknown, and otherwise
`!password_ok || role != Admin`. -/
def attemptRejectedB (lib : Argon2) (db : String → LookupResult)
    (form : LoginForm) : Bool :=
  match db form.email with
  | .dbError => false
  | .notFound => true
  | .found u =>
      (!verify_password lib form.password u.password) ||
        (u.role != UserRole.Admin)

/-- The `Set-Cookie` headers of a handler outcome (an error response carries
none). -/
def loginSetCookies : Except AppError Response → List Cookie
  | .ok r => r.setCookies
  | .error _ => []

/-- A whole sequence of login attempts threading the process-wide `DUMMY_HASH`
cell, in the order the cell serializes them; returns the final cell state and
the trace of each attempt. -/
def runLogins (data : AppData) (lib : Argon2) (db : String → LookupResult) :
    OnceLock String → List LoginForm → OnceLock String × List LoginTrace
  | cell, [] => (cell, [])
  | cell, f :: fs =>
      let r := loginPost data lib db cell f
      let rest := runLogins data lib db r.2.1 fs
      (rest.1, r.2.2 :: rest.2)

/-- How many attempts of a run executed the `DUMMY_HASH` initializer. -/
def computeCount (ts : List LoginTrace) : Nat :=
  (ts.filter (fun t => t.dummyComputed)).length

/-- The registration form (register.rs `FormData`). -/
structure RegisterForm where
  email : String
  password : String
  repeat_password : String
deriving DecidableEq

/-- The row written by register.rs's `INSERT INTO users (email, password, role)`. -/
structure UserInsert where
  email : String
  passwordHash : String
  role : UserRole
deriving DecidableEq

/-- `post` (register.rs) as a function of the argon2 behaviour and the
`SELECT id FROM users WHERE email = ?` outcome: password at least 8 bytes,
passwords match, trimmed lowercased email contains `@` and is nonempty, hash
the password, reject taken emails, and insert the row with role
`UserRole::User`.  Returns the response together with the row inserted, if
any. -/
def registerPost (lib : Argon2) (emailTaken : String → Except Unit Bool)
    (form : RegisterForm) : Except AppError (Response × Option UserInsert) :=
  if strLen form.password < 8 then
    .ok (.render "register" [("error", "Passwort muss mindestens 8 Zeichen lang sein")], none)
  else if form.password ≠ form.repeat_password then
    .ok (.render "register" [("error", "Passwörter stimmen nicht überein")], none)
  else
    let email := toLowercase (trimStr form.email)
    if (!containsChar email '@') || strIsEmpty email then
      .ok (.render "register" [("error", "Ungültige E-Mail-Adresse")], none)
    else
      match hash_password lib form.password with
      | .error _ => .error (.Internal "argon2 error")
      | .ok hashed_password =>
          match emailTaken email with
          | .error _ => .error (.Internal "database error")
          | .ok true =>
              .ok (.render "register" [("error", "E-Mail wird bereits verwendet")], none)
          | .ok false =>
              .ok (.seeOther "/login" [],
                some ⟨email, hashed_password, UserRole.User⟩)

/-! ## Helper lemmas -/

/-- Issue-then-validate helper: with the secret present, `create_jwt` succeeds
and `read_jwt` at time `now` accepts the produced token, returning the claims
it was built from. -/
theorem create_read_aux (s : String) (now : Nat) (u : User) :
    create_jwt ⟨some s, now⟩ u =
      .ok (.tok ⟨⟨u.id, u.role, now + 3600 * 12⟩,
        signToken s ⟨u.id, u.role, now + 3600 * 12⟩⟩) ∧
    read_jwt ⟨some s, now⟩
        ⟨some (.tok ⟨⟨u.id, u.role, now + 3600 * 12⟩,
          signToken s ⟨u.id, u.role, now + 3600 * 12⟩⟩)⟩ =
      .ok ⟨u.id, u.role, now + 3600 * 12⟩ := by
  have hlt : ¬ (now + 3600 * 12 < now) := by omega
  have hlt2 : ¬ (now + 3600 * 12 < now - jwtLeeway) := by omega
  exact ⟨rfl, by simp [read_jwt, decodeJwt, hlt, hlt2]⟩

/-! ## C1 — expiry handling of `read_jwt` -/

/-- A correctly signed token whose expiry (100) is more than the decoder's
leeway before the probe time (1000). -/
def staleToken : Token :=
  ⟨⟨1, UserRole.Admin, 100⟩, signToken "secret" ⟨1, UserRole.Admin, 100⟩⟩

/-- Counterexample to C1 as stated: `staleToken` carries a correct signature
and its embedded expiry is in the past (100 < 1000), yet `read_jwt` does not
return `JwtExpired`.  The expiry lies beyond the leeway of the decoder's
default validation, so `decode` itself fails, and the `map_err` collapse
yields `JwtDecodingError` before the code's own `exp < now` check is
reached. -/
theorem expired_beyond_leeway_not_jwtexpired :
    staleToken.sig = signToken "secret" staleToken.claims ∧
    staleToken.claims.exp < 1000 ∧
    read_jwt ⟨some "secret", 1000⟩ ⟨some (Wire.tok staleToken)⟩ =
      .error JwtError.JwtDecodingError ∧
    ¬ read_jwt ⟨some "secret", 1000⟩ ⟨some (Wire.tok staleToken)⟩ =
        .error JwtError.JwtExpired := by
  refine ⟨rfl, by decide, rfl, ?_⟩
  intro h
  have h0 : read_jwt ⟨some "secret", 1000⟩ ⟨some (Wire.tok staleToken)⟩ =
      .error JwtError.JwtDecodingError := rfl
  rw [h0] at h
  simp at h

/-- C1 (amended): for a correctly signed token in the `token` cookie with the
secret present, an expiry strictly before `now` always rejects the token, but
the error is `JwtExpired` only when the expiry lies within the decoder's
default leeway window (`now - 60 ≤ exp < now`); a token expired beyond the
leeway already fails inside `decode`, so `read_jwt` returns
`JwtDecodingError`.  At the boundary there is no clock-skew tolerance for
acceptance: `exp < now` rejects and `exp = now` accepts, returning the
claims. -/
theorem read_jwt_expiry_boundary (s : String) (now : Nat) (t : Token)
    (hsig : t.sig = signToken s t.claims) :
    (t.claims.exp < now →
      ∃ e : JwtError, read_jwt ⟨some s, now⟩ ⟨some (Wire.tok t)⟩ = .error e) ∧
    (t.claims.exp < now → now - jwtLeeway ≤ t.claims.exp →
      read_jwt ⟨some s, now⟩ ⟨some (Wire.tok t)⟩ = .error JwtError.JwtExpired) ∧
    (t.claims.exp < now - jwtLeeway →
      read_jwt ⟨some s, now⟩ ⟨some (Wire.tok t)⟩ =
        .error JwtError.JwtDecodingError) ∧
    (t.claims.exp = now →
      read_jwt ⟨some s, now⟩ ⟨some (Wire.tok t)⟩ = .ok t.claims) := by
  refine ⟨?_, ?_, ?_, ?_⟩
  · intro h
    by_cases h2 : t.claims.exp < now - jwtLeeway
    · exact ⟨JwtError.JwtDecodingError, by simp [read_jwt, decodeJwt, hsig, h2]⟩
    · exact ⟨JwtError.JwtExpired, by simp [read_jwt, decodeJwt, hsig, h2, h]⟩
  · intro h hl
    have h2 : ¬ t.claims.exp < now - jwtLeeway := Nat.not_lt.mpr hl
    simp [read_jwt, decodeJwt, hsig, h2, h]
  · intro h2
    simp [read_jwt, decodeJwt, hsig, h2]
  · intro h
    have h2 : ¬ (now < now - jwtLeeway) := by omega
    simp [read_jwt, decodeJwt, hsig, h, h2]

/-- Witness for the amended C1 at concrete inputs: a token expired within the
leeway (exp 95, now 100) returns `JwtExpired`; one expired beyond the leeway
(exp 5, now 1000) returns `JwtDecodingError`; one whose expiry equals the
current time is accepted. -/
theorem read_jwt_expiry_boundary_witness :
    ((95 : Nat) < 100 ∧ (100 : Nat) - jwtLeeway ≤ 95 ∧
      read_jwt ⟨some "s", 100⟩
          ⟨some (Wire.tok ⟨⟨1, UserRole.Admin, 95⟩, signToken "s" ⟨1, UserRole.Admin, 95⟩⟩)⟩ =
        .error JwtError.JwtExpired) ∧
    ((5 : Nat) < 1000 - jwtLeeway ∧
      read_jwt ⟨some "s", 1000⟩
          ⟨some (Wire.tok ⟨⟨1, UserRole.Admin, 5⟩, signToken "s" ⟨1, UserRole.Admin, 5⟩⟩)⟩ =
        .error JwtError.JwtDecodingError) ∧
    read_jwt ⟨some "s", 7⟩
        ⟨some (Wire.tok ⟨⟨1, UserRole.Admin, 7⟩, signToken "s" ⟨1, UserRole.Admin, 7⟩⟩)⟩ =
      .ok ⟨1, UserRole.Admin, 7⟩ :=
  ⟨⟨by decide, by decide,
    (read_jwt_expiry_boundary "s" 100 ⟨⟨1, UserRole.Admin, 95⟩, _⟩ rfl).2.1
      (by decide) (by decide)⟩,
   ⟨by decide,
    (read_jwt_expiry_boundary "s" 1000 ⟨⟨1, UserRole.Admin, 5⟩, _⟩ rfl).2.2.1
      (by decide)⟩,
   (read_jwt_expiry_boundary "s" 7 ⟨⟨1, UserRole.Admin, 7⟩, _⟩ rfl).2.2.2 rfl⟩

/-! ## C4 — issue-then-validate round trip -/

/-- C4: with any secret, issuing a token for any user and validating it
immediately succeeds and returns claims with the same subject, the same role,
and an expiry strictly greater than the current time; in particular for
subject 42 with role Admin (the token's ttl is the fixed `3600 * 12 = 43200`
seconds of `create_jwt`). -/
theorem issue_then_validate :
    (∀ (s : String) (now : Nat) (u : User),
      ∃ w : Wire, create_jwt ⟨some s, now⟩ u = .ok w ∧
        read_jwt ⟨some s, now⟩ ⟨some w⟩ = .ok ⟨u.id, u.role, now + 3600 * 12⟩ ∧
        now < now + 3600 * 12) ∧
    (∀ (s email pw : String) (now : Nat) (created : Int),
      ∃ w : Wire,
        create_jwt ⟨some s, now⟩ ⟨42, email, pw, UserRole.Admin, created⟩ = .ok w ∧
        read_jwt ⟨some s, now⟩ ⟨some w⟩ =
          .ok ⟨42, UserRole.Admin, now + 3600 * 12⟩) := by
  constructor
  · intro s now u
    obtain ⟨h1, h2⟩ := create_read_aux s now u
    exact ⟨_, h1, h2, by omega⟩
  · intro s email pw now created
    obtain ⟨h1, h2⟩ := create_read_aux s now ⟨42, email, pw, UserRole.Admin, created⟩
    exact ⟨_, h1, h2⟩

/-! ## C5 — AuthGuard requires role Admin -/

/-- C5: given a structurally valid, correctly signed, unexpired token in the
cookie, `AuthUser::from_request` rejects role `User` and role `None` with the
redirect to `/login` (the external mapping of `JwtError::Unauthorized`), and
only role `Admin` yields an `AuthUser` exposing the token's claims (subject and
role) to the handler. -/
theorem auth_guard_admin_only (s : String) (now : Nat) (t : Token)
    (hsig : t.sig = signToken s t.claims) (hexp : now ≤ t.claims.exp) :
    (t.claims.role = UserRole.User ∨ t.claims.role = UserRole.None →
      AuthUser.from_request ⟨some s, now⟩ ⟨some (Wire.tok t)⟩ =
        .error (AuthError.Redirect "/login")) ∧
    (t.claims.role = UserRole.Admin →
      AuthUser.from_request ⟨some s, now⟩ ⟨some (Wire.tok t)⟩ = .ok ⟨t.claims⟩) := by
  have hnl : ¬ t.claims.exp < now := Nat.not_lt.mpr hexp
  have hnl2 : ¬ t.claims.exp < now - jwtLeeway := by omega
  constructor
  · intro hrole
    have hne : ¬ t.claims.role = UserRole.Admin := by
      rcases hrole with h | h <;> simp [h]
    simp [AuthUser.from_request, read_jwt, decodeJwt, hsig, hnl, hnl2, hne,
      AuthError.fromJwt]
  · intro hrole
    simp [AuthUser.from_request, read_jwt, decodeJwt, hsig, hnl, hnl2, hrole]

/-- Witness for C5 at concrete inputs: a valid unexpired token with role `User`
is redirected to `/login`, and one with role `Admin` is accepted with its
claims. -/
theorem auth_guard_admin_only_witness :
    ((10 : Nat) ≤ 50 ∧
      AuthUser.from_request ⟨some "s", 10⟩
          ⟨some (Wire.tok ⟨⟨7, UserRole.User, 50⟩, signToken "s" ⟨7, UserRole.User, 50⟩⟩)⟩ =
        .error (AuthError.Redirect "/login")) ∧
    AuthUser.from_request ⟨some "s", 10⟩
        ⟨some (Wire.tok ⟨⟨7, UserRole.Admin, 50⟩, signToken "s" ⟨7, UserRole.Admin, 50⟩⟩)⟩ =
      .ok ⟨⟨7, UserRole.Admin, 50⟩⟩ :=
  ⟨⟨by decide,
    (auth_guard_admin_only "s" 10 ⟨⟨7, UserRole.User, 50⟩, _⟩ rfl (by decide)).1
      (Or.inl rfl)⟩,
   (auth_guard_admin_only "s" 10 ⟨⟨7, UserRole.Admin, 50⟩, _⟩ rfl (by decide)).2 rfl⟩

/-! ## C6 — bad signatures are rejected, but not with a dedicated error -/

/-- Modelled from the spec: the failure taxonomy of `AuthOutcome` (spec section
3), which distinguishes `TokenMalformed` from `SignatureInvalid`.  The code's
`JwtError` has no such distinction; this type exists to state the claim that it
does. -/
inductive FailureKind
  | TokenMissing
  | TokenMalformed
  | SignatureInvalid
  | TokenExpired
  | RoleUnauthorized
  | ConfigurationError
deriving DecidableEq, Repr

/-- A concrete token whose attached signature differs (by one) from the correct
signature over its payload. -/
def badSigToken : Token :=
  ⟨⟨1, UserRole.Admin, 100⟩, signToken "secret" ⟨1, UserRole.Admin, 100⟩ + 1⟩

/-- Counterexample to C6 as stated: validation of a token with an altered
signature does not return a `SignatureInvalid` outcome.  No reading of the
code's errors as spec failure kinds can map the bad-signature outcome to
`SignatureInvalid` while mapping the malformed-token outcome to
`TokenMalformed`, because `read_jwt` returns the very same error value
(`JwtDecodingError`) for the concrete altered-signature token `badSigToken`
and for the concrete unparseable cookie `"garbage"`. -/
theorem signature_error_not_distinguished :
    ¬ ∃ r : JwtError → FailureKind,
      (∀ e, read_jwt ⟨some "secret", 0⟩ ⟨some (Wire.malformed "garbage")⟩ =
          Except.error e → r e = FailureKind.TokenMalformed) ∧
      (∀ e, read_jwt ⟨some "secret", 0⟩ ⟨some (Wire.tok badSigToken)⟩ =
          Except.error e → r e = FailureKind.SignatureInvalid) := by
  rintro ⟨r, h1, h2⟩
  have hA : r JwtError.JwtDecodingError = FailureKind.TokenMalformed :=
    h1 JwtError.JwtDecodingError rfl
  have hB : r JwtError.JwtDecodingError = FailureKind.SignatureInvalid :=
    h2 JwtError.JwtDecodingError rfl
  rw [hA] at hB
  simp at hB

/-- C6 amended: for every token whose attached signature differs from the
correct signature over its payload, `read_jwt` rejects it with the returned
error value `JwtDecodingError` — the same variant it returns for an unparseable
token, so signature invalidity is not distinguished from malformation — and the
failure is an error value of the total function, never a panic. -/
theorem bad_signature_rejected (s g : String) (now : Nat) (t : Token)
    (hsig : t.sig ≠ signToken s t.claims) :
    read_jwt ⟨some s, now⟩ ⟨some (Wire.tok t)⟩ =
      .error JwtError.JwtDecodingError ∧
    read_jwt ⟨some s, now⟩ ⟨some (Wire.malformed g)⟩ =
      .error JwtError.JwtDecodingError := by
  constructor
  · simp [read_jwt, decodeJwt, hsig]
  · simp [read_jwt, decodeJwt]

/-- Witness for the amended C6 at a concrete input: a token with its signature
altered by one byte-value is rejected with `JwtDecodingError`. -/
theorem bad_signature_rejected_witness :
    badSigToken.sig ≠ signToken "secret" badSigToken.claims ∧
    read_jwt ⟨some "secret", 0⟩ ⟨some (Wire.tok badSigToken)⟩ =
      .error JwtError.JwtDecodingError :=
  ⟨by decide,
   (bad_signature_rejected "secret" "g" 0 badSigToken (by decide)).1⟩

/-! ## C7 — `verify_password` is total and degrades errors to `false` -/

/-- C7: `verify_password` always returns a boolean; whenever the argon2 library
fails internally (malformed hash, unsupported parameters, any error at all) the
result is `false`, and it is equal to the result of an ordinary verification
mismatch, so the two cases are externally indistinguishable and no error
propagates to the caller. -/
theorem verify_password_degrades :
    (∀ (lib : Argon2) (p h : String) (e : Unit),
      lib.verifyEncoded h p = .error e → verify_password lib p h = false) ∧
    (∀ (lib lib' : Argon2) (p h p' h' : String) (e : Unit),
      lib.verifyEncoded h p = .error e → lib'.verifyEncoded h' p' = .ok false →
      verify_password lib p h = verify_password lib' p' h') := by
  constructor
  · intro lib p h e he
    simp [verify_password, he]
  · intro lib lib' p h p' h' e he hok
    simp [verify_password, he, hok]

/-- An argon2 behaviour that always fails internally. -/
def argonAllErr : Argon2 :=
  ⟨fun _ _ => .error (), fun _ => .error ()⟩

/-- An argon2 behaviour that always reports an ordinary mismatch. -/
def argonAllFalse : Argon2 :=
  ⟨fun _ _ => .ok false, fun p => .ok p⟩

/-- Witness for C7 at concrete inputs: with a failing library the result is
`false` and coincides with an ordinary mismatch on different inputs. -/
theorem verify_password_degrades_witness :
    argonAllErr.verifyEncoded "hash" "pw" = .error () ∧
    verify_password argonAllErr "pw" "hash" = false ∧
    verify_password argonAllErr "pw" "hash" = verify_password argonAllFalse "q" "g" :=
  ⟨rfl,
   verify_password_degrades.1 argonAllErr "pw" "hash" () rfl,
   verify_password_degrades.2 argonAllErr argonAllFalse "pw" "hash" "q" "g" () rfl rfl⟩

/-! ## C8 — textual role parsing degrades to `None` -/

/-- C8: converting text to a `UserRole` via `From<String>` never fails: any
value that is not (case-insensitively) one of the known names yields
`UserRole.None`, and each known name, in any casing, yields its respective
role. -/
theorem role_from_text :
    (∀ s : String, toLowercase s ≠ "admin" → toLowercase s ≠ "user" →
      toLowercase s ≠ "none" → UserRole.fromString s = UserRole.None) ∧
    (∀ s : String, toLowercase s = "admin" → UserRole.fromString s = UserRole.Admin) ∧
    (∀ s : String, toLowercase s = "user" → UserRole.fromString s = UserRole.User) ∧
    (∀ s : String, toLowercase s = "none" → UserRole.fromString s = UserRole.None) := by
  refine ⟨?_, ?_, ?_, ?_⟩
  · intro s h1 h2 h3
    simp [UserRole.fromString, UserRole.from_str, h1, h2, h3]
  · intro s h
    simp [UserRole.fromString, UserRole.from_str, h]
  · intro s h
    simp [UserRole.fromString, UserRole.from_str, h]
  · intro s h
    simp [UserRole.fromString, UserRole.from_str, h]

/-- Witness for C8 at concrete inputs: an unknown value parses to `None`, and
the known names parse case-insensitively to their roles. -/
theorem role_from_text_witness :
    (toLowercase "banana" ≠ "admin" ∧ toLowercase "banana" ≠ "user" ∧
      toLowercase "banana" ≠ "none" ∧
      UserRole.fromString "banana" = UserRole.None) ∧
    (toLowercase "ADMIN" = "admin" ∧ UserRole.fromString "ADMIN" = UserRole.Admin) ∧
    (toLowercase "uSEr" = "user" ∧ UserRole.fromString "uSEr" = UserRole.User) ∧
    (toLowercase "None" = "none" ∧ UserRole.fromString "None" = UserRole.None) :=
  ⟨⟨by decide, by decide, by decide,
    role_from_text.1 "banana" (by decide) (by decide) (by decide)⟩,
   ⟨by decide, role_from_text.2.1 "ADMIN" (by decide)⟩,
   ⟨by decide, role_from_text.2.2.1 "uSEr" (by decide)⟩,
   ⟨by decide, role_from_text.2.2.2 "None" (by decide)⟩⟩

/-! ## C9 — registration only ever inserts role `User` -/

/-- C9: whatever the form contents, the argon2 behaviour, and the database
state, every row the registration handler inserts has role `UserRole.User` —
never `Admin` and never `None` — so registration offers no path to elevated
privilege. -/
theorem register_inserts_user_role :
    ∀ (lib : Argon2) (emailTaken : String → Except Unit Bool)
      (form : RegisterForm) (resp : Response) (ins : UserInsert),
      registerPost lib emailTaken form = .ok (resp, some ins) →
      ins.role = UserRole.User := by
  intro lib emailTaken form resp ins h
  by_cases h1 : strLen form.password < 8
  · simp [registerPost, h1] at h
  · by_cases h2 : form.password ≠ form.repeat_password
    · simp [registerPost, h1, h2] at h
    · by_cases h3 :
        ((!containsChar (toLowercase (trimStr form.email)) '@') ||
          strIsEmpty (toLowercase (trimStr form.email))) = true
      · simp [registerPost, h1, h2, h3] at h
      · rcases hhp : hash_password lib form.password with e | hp
        · simp [registerPost, h1, h2, h3, hhp] at h
        · rcases het : emailTaken (toLowercase (trimStr form.email)) with e | b
          · simp [registerPost, h1, h2, h3, hhp, het] at h
          · cases b
            · simp [registerPost, h1, h2, h3, hhp, het] at h
              rw [← h.2]
            · simp [registerPost, h1, h2, h3, hhp, het] at h

/-- Witness for C9 at concrete inputs: a valid registration (mixed-case email
with surrounding whitespace, 11-byte password) inserts a row, and that row's
role is `User`. -/
theorem register_inserts_user_role_witness :
    registerPost argonAllFalse (fun _ => Except.ok false)
        ⟨" User@Example.com ", "password123", "password123"⟩ =
      Except.ok (Response.seeOther "/login" [],
        some ⟨"user@example.com", "password123", UserRole.User⟩) ∧
    (UserInsert.mk "user@example.com" "password123" UserRole.User).role =
      UserRole.User :=
  ⟨rfl,
   register_inserts_user_role argonAllFalse (fun _ => Except.ok false)
     ⟨" User@Example.com ", "password123", "password123"⟩
     (Response.seeOther "/login" [])
     ⟨"user@example.com", "password123", UserRole.User⟩ rfl⟩

/-! ## Login flow helper lemmas -/

/-- Any attempt the guard rejects produces the generic re-rendered login view,
with exactly one `verify_password` call and no JWT issued. -/
theorem loginPost_rejected (data : AppData) (lib : Argon2)
    (db : String → LookupResult) (cell : OnceLock String) (form : LoginForm)
    (h : attemptRejectedB lib db form = true) :
    (loginPost data lib db cell form).1 =
      .ok (.render "login" [("error", "Falsche Daten")]) ∧
    (loginPost data lib db cell form).2.2.verifyCalls = 1 ∧
    (loginPost data lib db cell form).2.2.jwtsIssued = 0 := by
  cases hdb : db form.email with
  | dbError => simp [attemptRejectedB, hdb] at h
  | notFound => simp [loginPost, hdb]
  | found u =>
      cases hv : verify_password lib form.password u.password with
      | false => simp [loginPost, hdb, hv]
      | true =>
          have hr : (u.role != UserRole.Admin) = true := by
            simpa [attemptRejectedB, hdb, hv] using h
          simp [loginPost, hdb, hv, hr]

/-- An attempt the guard accepts (account found, password verified, role
Admin) issues exactly one JWT and redirects to `/` with the login cookie. -/
theorem loginPost_accepted (data : AppData) (lib : Argon2)
    (db : String → LookupResult) (cell : OnceLock String) (form : LoginForm)
    (u : User) (hdb : db form.email = LookupResult.found u)
    (hrej : attemptRejectedB lib db form = false) :
    (loginPost data lib db cell form).1 =
      .ok (.seeOther "/" [loginCookie data
        (.tok ⟨⟨u.id, u.role, data.now + 3600 * 12⟩,
          signToken data.jwtSecret ⟨u.id, u.role, data.now + 3600 * 12⟩⟩)]) ∧
    (loginPost data lib db cell form).2.2.jwtsIssued = 1 := by
  have h' : verify_password lib form.password u.password = true ∧
      (u.role != UserRole.Admin) = false := by
    simpa [attemptRejectedB, hdb] using hrej
  simp [loginPost, hdb, h'.1, h'.2, create_jwt]

/-! ## C2 — failing login attempts are externally identical -/

/-- C2: any two login attempts the guard rejects — unknown email, known email
with a wrong password, or correct credentials for a non-Admin role — produce
the same response, namely the re-rendered login view with the one generic
error message, regardless of the configuration or the state of the dummy-hash
cell; and both perform the same number of password verifications (exactly
one), the model of their latency. -/
theorem failed_logins_externally_identical :
    ∀ (data data' : AppData) (lib : Argon2) (db : String → LookupResult)
      (cell cell' : OnceLock String) (f1 f2 : LoginForm),
      attemptRejectedB lib db f1 = true → attemptRejectedB lib db f2 = true →
      (loginPost data lib db cell f1).1 =
        .ok (.render "login" [("error", "Falsche Daten")]) ∧
      (loginPost data lib db cell f1).1 = (loginPost data' lib db cell' f2).1 ∧
      (loginPost data lib db cell f1).2.2.verifyCalls =
        (loginPost data' lib db cell' f2).2.2.verifyCalls := by
  intro data data' lib db cell cell' f1 f2 h1 h2
  obtain ⟨r1, v1, -⟩ := loginPost_rejected data lib db cell f1 h1
  obtain ⟨r2, v2, -⟩ := loginPost_rejected data' lib db cell' f2 h2
  exact ⟨r1, r1.trans r2.symm, v1.trans v2.symm⟩

/-- A concrete stored account used by the witnesses. -/
def wUser : User :=
  ⟨1, "alice@example.com", "hash:pw", UserRole.Admin, 0⟩

/-- A concrete database holding exactly `wUser`. -/
def wDb : String → LookupResult := fun e =>
  if e = "alice@example.com" then .found wUser else .notFound

/-- A concrete ideal argon2 behaviour: the hash of `p` is `"hash:" ++ p` and
verification recomputes it. -/
def wLib : Argon2 :=
  ⟨fun h p => .ok (h == "hash:" ++ p), fun p => .ok ("hash:" ++ p)⟩

/-- A concrete configuration used by the witnesses. -/
def wData : AppData :=
  ⟨EnvMode.Prod, "example.com", "topsecret", 1000⟩

/-- Witness for C2 at concrete inputs: an unknown-email attempt and a
wrong-password attempt against the stored account yield the same response. -/
theorem failed_logins_externally_identical_witness :
    attemptRejectedB wLib wDb ⟨"bob@example.com", "pw"⟩ = true ∧
    attemptRejectedB wLib wDb ⟨"alice@example.com", "wrong"⟩ = true ∧
    (loginPost wData wLib wDb ⟨none⟩ ⟨"bob@example.com", "pw"⟩).1 =
      (loginPost wData wLib wDb ⟨none⟩ ⟨"alice@example.com", "wrong"⟩).1 :=
  ⟨rfl, rfl,
   (failed_logins_externally_identical wData wData wLib wDb ⟨none⟩ ⟨none⟩
     ⟨"bob@example.com", "pw"⟩ ⟨"alice@example.com", "wrong"⟩ rfl rfl).2.1⟩

/-! ## C10 — no cookie and no token on any rejected login -/

/-- C10: a rejected login attempt (unknown email, wrong password, or non-Admin
role) carries no `Set-Cookie` header and requests no JWT from `create_jwt`;
only an accepted attempt redirects with exactly the cookie named `token`. -/
theorem no_cookie_on_rejection :
    ∀ (data : AppData) (lib : Argon2) (db : String → LookupResult)
      (cell : OnceLock String) (form : LoginForm),
      (attemptRejectedB lib db form = true →
        loginSetCookies (loginPost data lib db cell form).1 = [] ∧
        (loginPost data lib db cell form).2.2.jwtsIssued = 0) ∧
      (∀ u : User, db form.email = LookupResult.found u →
        attemptRejectedB lib db form = false →
        ∃ w : Wire,
          (loginPost data lib db cell form).1 =
            .ok (.seeOther "/" [loginCookie data w]) ∧
          (loginCookie data w).name = "token" ∧
          (loginPost data lib db cell form).2.2.jwtsIssued = 1) := by
  intro data lib db cell form
  constructor
  · intro h
    obtain ⟨r, -, j⟩ := loginPost_rejected data lib db cell form h
    refine ⟨?_, j⟩
    rw [r]
    rfl
  · intro u hdb hrej
    obtain ⟨r, j⟩ := loginPost_accepted data lib db cell form u hdb hrej
    exact ⟨_, r, rfl, j⟩

/-- Witness for C10 at concrete inputs: a rejected attempt has no cookie and
issues no JWT; an accepted attempt redirects with the `token` cookie. -/
theorem no_cookie_on_rejection_witness :
    (attemptRejectedB wLib wDb ⟨"bob@example.com", "pw"⟩ = true ∧
      loginSetCookies
          (loginPost wData wLib wDb ⟨none⟩ ⟨"bob@example.com", "pw"⟩).1 = [] ∧
      (loginPost wData wLib wDb ⟨none⟩ ⟨"bob@example.com", "pw"⟩).2.2.jwtsIssued = 0) ∧
    (wDb "alice@example.com" = LookupResult.found wUser ∧
      attemptRejectedB wLib wDb ⟨"alice@example.com", "pw"⟩ = false ∧
      ∃ w : Wire,
        (loginPost wData wLib wDb ⟨none⟩ ⟨"alice@example.com", "pw"⟩).1 =
          .ok (.seeOther "/" [loginCookie wData w]) ∧
        (loginCookie wData w).name = "token") := by
  constructor
  · have h := (no_cookie_on_rejection wData wLib wDb ⟨none⟩
      ⟨"bob@example.com", "pw"⟩).1 rfl
    exact ⟨rfl, h.1, h.2⟩
  · have h := (no_cookie_on_rejection wData wLib wDb ⟨none⟩
      ⟨"alice@example.com", "pw"⟩).2 wUser rfl rfl
    obtain ⟨w, hw, hn, -⟩ := h
    exact ⟨rfl, rfl, w, hw, hn⟩

/-! ## OnceLock lemmas for C3 -/

/-- Once the `DUMMY_HASH` cell holds `v`, a login attempt never reruns the
initializer, leaves the cell unchanged, and any dummy value it observes is
`v`. -/
theorem loginPost_from_some (data : AppData) (lib : Argon2)
    (db : String → LookupResult) (v : String) (f : LoginForm) :
    (loginPost data lib db ⟨some v⟩ f).2.1 = ⟨some v⟩ ∧
    (loginPost data lib db ⟨some v⟩ f).2.2.dummyComputed = false ∧
    (∀ d, (loginPost data lib db ⟨some v⟩ f).2.2.observedDummy = some d →
      d = v) := by
  cases hdb : db f.email <;>
    simp [loginPost, hdb, OnceLock.get_or_init]

/-- `computeCount` over a cons. -/
theorem computeCount_cons (t : LoginTrace) (ts : List LoginTrace) :
    computeCount (t :: ts) =
      (if t.dummyComputed then 1 else 0) + computeCount ts := by
  simp only [computeCount, List.filter_cons]
  split <;> simp [Nat.add_comm]

/-- From a filled `DUMMY_HASH` cell, a whole run of login attempts never
reruns the initializer and every observed dummy value is the cell's
content. -/
theorem runLogins_from_some (data : AppData) (lib : Argon2)
    (db : String → LookupResult) (v : String) (fs : List LoginForm) :
    (runLogins data lib db ⟨some v⟩ fs).1 = ⟨some v⟩ ∧
    computeCount (runLogins data lib db ⟨some v⟩ fs).2 = 0 ∧
    (∀ t ∈ (runLogins data lib db ⟨some v⟩ fs).2, ∀ d,
      t.observedDummy = some d → d = v) := by
  induction fs with
  | nil => simp [runLogins, computeCount]
  | cons f fs ih =>
      obtain ⟨hc, hcomp, hobs⟩ := loginPost_from_some data lib db v f
      simp only [runLogins, hc]
      refine ⟨ih.1, ?_, ?_⟩
      · rw [computeCount_cons, hcomp]
        simpa using ih.2.1
      · intro t ht d hd
        rcases List.mem_cons.mp ht with h | h
        · exact hobs d (h ▸ hd)
        · exact ih.2.2 t h d hd

/-- From the empty `DUMMY_HASH` cell, an attempt that reaches the credential
check fills the cell with the initializer's value, observes exactly that
value, and is the one that ran the initializer. -/
theorem loginPost_from_none_fills (data : AppData) (lib : Argon2)
    (db : String → LookupResult) (f : LoginForm)
    (h : db f.email ≠ LookupResult.dbError) :
    (loginPost data lib db ⟨none⟩ f).2.1 = ⟨some (dummyInit lib ())⟩ ∧
    (loginPost data lib db ⟨none⟩ f).2.2.observedDummy =
      some (dummyInit lib ()) ∧
    (loginPost data lib db ⟨none⟩ f).2.2.dummyComputed = true := by
  cases hdb : db f.email with
  | dbError => exact absurd hdb h
  | notFound => simp [loginPost, hdb, OnceLock.get_or_init]
  | found u => simp [loginPost, hdb, OnceLock.get_or_init]

/-- A database-error attempt touches neither the cell nor the dummy value. -/
theorem loginPost_dbError (data : AppData) (lib : Argon2)
    (db : String → LookupResult) (cell : OnceLock String) (f : LoginForm)
    (hdb : db f.email = LookupResult.dbError) :
    loginPost data lib db cell f =
      (.error AppError.Db, cell, ⟨0, 0, [], none, false⟩) := by
  simp [loginPost, hdb]

/-- Over any run starting from the empty cell, the initializer runs at most
once and every observed dummy value is the initializer's value. -/
theorem runLogins_from_none (data : AppData) (lib : Argon2)
    (db : String → LookupResult) (fs : List LoginForm) :
    computeCount (runLogins data lib db ⟨none⟩ fs).2 ≤ 1 ∧
    (∀ t ∈ (runLogins data lib db ⟨none⟩ fs).2, ∀ d,
      t.observedDummy = some d → d = dummyInit lib ()) := by
  induction fs with
  | nil => simp [runLogins, computeCount]
  | cons f fs ih =>
      cases hne : db f.email with
      | dbError =>
          have h1 := loginPost_dbError data lib db ⟨none⟩ f hne
          simp only [runLogins, h1]
          refine ⟨?_, ?_⟩
          · rw [computeCount_cons]
            simpa using ih.1
          · intro t ht d hd
            rcases List.mem_cons.mp ht with h | h
            · rw [h] at hd
              simp at hd
            · exact ih.2 t h d hd
      | notFound =>
          obtain ⟨hc, hobs, hcomp⟩ :=
            loginPost_from_none_fills data lib db f (by rw [hne]; simp)
          obtain ⟨-, hrest, hrobs⟩ :=
            runLogins_from_some data lib db (dummyInit lib ()) fs
          simp only [runLogins, hc]
          refine ⟨?_, ?_⟩
          · rw [computeCount_cons, hcomp, hrest]
            simp
          · intro t ht d hd
            rcases List.mem_cons.mp ht with h | h
            · rw [h] at hd
              rw [hobs] at hd
              exact (Option.some_inj.mp hd).symm
            · exact hrobs t h d hd
      | found u =>
          obtain ⟨hc, hobs, hcomp⟩ :=
            loginPost_from_none_fills data lib db f (by rw [hne]; simp)
          obtain ⟨-, hrest, hrobs⟩ :=
            runLogins_from_some data lib db (dummyInit lib ()) fs
          simp only [runLogins, hc]
          refine ⟨?_, ?_⟩
          · rw [computeCount_cons, hcomp, hrest]
            simp
          · intro t ht d hd
            rcases List.mem_cons.mp ht with h | h
            · rw [h] at hd
              rw [hobs] at hd
              exact (Option.some_inj.mp hd).symm
            · exact hrobs t h d hd

/-! ## C3 — one verify per attempt, one dummy-hash computation per process -/

/-- C3: on every login attempt that reaches the credential check (the lookup
did not abort with a database error), `verify_password` runs exactly once —
against the account's stored hash when the email matches an account, otherwise
against the dummy hash held by the `DUMMY_HASH` cell — and over any whole run
of attempts starting from the untouched cell, the dummy-hash initializer runs
at most once and every attempt observes the same value, the initializer's
result. -/
theorem dummy_hash_once_verify_once :
    ∀ (data : AppData) (lib : Argon2) (db : String → LookupResult),
      (∀ (cell : OnceLock String) (form : LoginForm),
        db form.email ≠ LookupResult.dbError →
        (loginPost data lib db cell form).2.2.verifyCalls = 1) ∧
      (∀ (cell : OnceLock String) (form : LoginForm) (u : User),
        db form.email = LookupResult.found u →
        (loginPost data lib db cell form).2.2.verifiedAgainst = [u.password]) ∧
      (∀ (cell : OnceLock String) (form : LoginForm),
        db form.email = LookupResult.notFound →
        (loginPost data lib db cell form).2.2.verifiedAgainst =
          [(cell.get_or_init (dummyInit lib)).1]) ∧
      (∀ fs : List LoginForm,
        computeCount (runLogins data lib db ⟨none⟩ fs).2 ≤ 1) ∧
      (∀ fs : List LoginForm, ∀ t ∈ (runLogins data lib db ⟨none⟩ fs).2, ∀ d,
        t.observedDummy = some d → d = dummyInit lib ()) := by
  intro data lib db
  refine ⟨?_, ?_, ?_, ?_, ?_⟩
  · intro cell form h
    cases hdb : db form.email with
    | dbError => exact absurd hdb h
    | notFound => simp [loginPost, hdb]
    | found u => simp [loginPost, hdb]
  · intro cell form u hdb
    simp [loginPost, hdb]
  · intro cell form hdb
    simp [loginPost, hdb]
  · intro fs
    exact (runLogins_from_none data lib db fs).1
  · intro fs
    exact (runLogins_from_none data lib db fs).2

/-- Witness for C3 at concrete inputs: a lookup that does not abort performs
exactly one password verification. -/
theorem dummy_hash_once_verify_once_witness :
    wDb "bob@example.com" ≠ LookupResult.dbError ∧
    (loginPost wData wLib wDb ⟨none⟩
      ⟨"bob@example.com", "pw"⟩).2.2.verifyCalls = 1 :=
  ⟨by decide,
   (dummy_hash_once_verify_once wData wLib wDb).1 ⟨none⟩
     ⟨"bob@example.com", "pw"⟩ (by decide)⟩
